import Mathlib

/-!
Verification development for the scene-editor repository.

The definitions below are a shallow embedding of the Rust sources:
GL object names are modelled as natural numbers, GL side effects as an
explicit trace of calls, the GPU driver's observable answers (compile
status, link status, info logs) as an oracle structure, and the ECS
world as explicit lists of entities.  Floating-point data (transforms,
colors, uniform values) never influences the control flow of any claim
and is elided from the embedded fragment.
-/

namespace SceneEditor

/-- Shader stages, from `ShaderType` in src/shader.rs. -/
inductive ShaderType where
  | vertex
  | fragment
deriving DecidableEq, Repr

/-- `ShaderType`'s `Display` impl in src/shader.rs. -/
def shaderTypeName : ShaderType → String
  | .vertex => "Vertex"
  | .fragment => "Fragment"

/-- `Shader` in src/shader.rs: a linked GPU program name plus a destroyed flag. -/
structure Shader where
  program : Nat
  destroyed : Bool
deriving DecidableEq, Repr

/-- `Shader::new` in src/shader.rs. -/
def Shader.new (program : Nat) : Shader := ⟨program, false⟩

/-- The GL calls the embedded code can issue, recorded as a trace. -/
inductive GlCall where
  | createShader (id : Nat)
  | shaderSource (id : Nat) (src : String)
  | compileShader (id : Nat)
  | deleteShader (id : Nat)
  | createProgram (id : Nat)
  | attachShader (program shader : Nat)
  | linkProgram (id : Nat)
  | deleteProgram (id : Nat)
  | deleteBuffer (id : Nat)
  | deleteVertexArray (id : Nat)
  | bindTexture (id : Nat)
  | texImage2D (width height : Int)
  | bindRenderbuffer (id : Nat)
  | renderbufferStorage (width height : Int)
  | createTexture (id : Nat)
  | createRenderbuffer (id : Nat)
  | createFramebuffer (id : Nat)
  | readPixels (x y : Int)
deriving DecidableEq, Repr

/-- Oracle for the GPU driver's observable answers during shader builds:
whether object creation, compilation and linking succeed, and the info
logs the driver reports.  The embedded functions are parametric in this
oracle, mirroring the fact that the Rust code branches on exactly these
driver responses. -/
structure GlDriver where
  createShaderOk : Bool
  createShaderErr : String
  createProgramOk : Bool
  createProgramErr : String
  compileOk : ShaderType → String → Bool
  shaderInfoLog : ShaderType → String → String
  linkOk : Bool
  programInfoLog : String

/-- `ShaderBuilder` in src/shader.rs: the per-stage shader objects added so far. -/
structure ShaderBuilder where
  shaders : List Nat
deriving DecidableEq, Repr

/-- Result of an embedded GL-using operation: the updated name counter,
the trace of GL calls issued, and the returned value or error string. -/
structure GlResult (α : Type) where
  nextId : Nat
  calls : List GlCall
  val : Except String α

/-- `ShaderBuilder::add_shader_source` in src/shader.rs: create a shader
object, upload the source, compile it; on compile failure return the
stage-tagged driver log; on success push the shader object. -/
def addShaderSource (drv : GlDriver) (nextId : Nat) (b : ShaderBuilder)
    (source : String) (shaderType : ShaderType) : GlResult ShaderBuilder :=
  if drv.createShaderOk then
    let shader := nextId
    let pre := [GlCall.createShader shader, GlCall.shaderSource shader source,
      GlCall.compileShader shader]
    if drv.compileOk shaderType source then
      ⟨nextId + 1, pre, .ok ⟨b.shaders ++ [shader]⟩⟩
    else
      ⟨nextId + 1, pre, .error (shaderTypeName shaderType
        ++ " shader compilation failed:\n" ++ drv.shaderInfoLog shaderType source)⟩
  else
    ⟨nextId, [], .error ("could not create shader: " ++ drv.createShaderErr)⟩

/-- `ShaderBuilder::link` in src/shader.rs: create a program, attach every
added shader object, link; on link failure delete the program and return
the driver log; on success delete the intermediate shader objects and
return the wrapped program. -/
def link (drv : GlDriver) (nextId : Nat) (b : ShaderBuilder) : GlResult Shader :=
  if drv.createProgramOk then
    let program := nextId
    let pre := GlCall.createProgram program
      :: b.shaders.map (GlCall.attachShader program) ++ [GlCall.linkProgram program]
    if drv.linkOk then
      ⟨nextId + 1, pre ++ b.shaders.map GlCall.deleteShader, .ok (Shader.new program)⟩
    else
      ⟨nextId + 1, pre ++ [GlCall.deleteProgram program],
        .error ("shader program linking failed:\n" ++ drv.programInfoLog)⟩
  else
    ⟨nextId, [], .error ("could not create shader program: " ++ drv.createProgramErr)⟩

instance {ε α : Type} [DecidableEq ε] [DecidableEq α] : DecidableEq (Except ε α)
  | .error a, .error b => decidable_of_iff (a = b) (by simp)
  | .error _, .ok _ => isFalse (by simp)
  | .ok _, .error _ => isFalse (by simp)
  | .ok a, .ok b => decidable_of_iff (a = b) (by simp)

/-- `CustomShader` component in src/components.rs: the compile result
(`Result<Shader, _>` with a string diagnostic) plus the raw source strings. -/
structure CustomShader where
  shader : Except String Shader
  vertSource : String
  fragSource : String
deriving DecidableEq, Repr

/-- The builder chain in `compile_custom_shader` (src/commands.rs):
`ShaderBuilder::new(..).add_shader_source(vert, Vertex)` and-then
`add_shader_source(frag, Fragment)` and-then `link()`. -/
def buildCustomShader (drv : GlDriver) (nextId : Nat) (vert frag : String) :
    GlResult Shader :=
  let r1 := addShaderSource drv nextId ⟨[]⟩ vert .vertex
  match r1.val with
  | .error e => ⟨r1.nextId, r1.calls, .error e⟩
  | .ok b1 =>
    let r2 := addShaderSource drv r1.nextId b1 frag .fragment
    match r2.val with
    | .error e => ⟨r2.nextId, r1.calls ++ r2.calls, .error e⟩
    | .ok b2 =>
      let r3 := link drv r2.nextId b2
      ⟨r3.nextId, r1.calls ++ r2.calls ++ r3.calls, r3.val⟩

/-- `compile_custom_shader` in src/commands.rs, acting on the entity's
`CustomShader` component: first delete the existing program when the stored
result is `Ok`, then rebuild from the current source strings and store the
outcome (success or error) back into the component. -/
def compileCustomShader (drv : GlDriver) (nextId : Nat) (cs : CustomShader) :
    Nat × List GlCall × CustomShader :=
  let destroyCalls := match cs.shader with
    | .ok s => [GlCall.deleteProgram s.program]
    | .error _ => []
  let r := buildCustomShader drv nextId cs.vertSource cs.fragSource
  (r.nextId, destroyCalls ++ r.calls, { cs with shader := r.val })

/-- An entity as seen by the shader commands: its id and optional
`CustomShader` component. -/
structure EntityCS where
  id : Nat
  custom : Option CustomShader
deriving DecidableEq, Repr

/-- `compile_custom_shader` at world level: the command targets one entity;
an entity without the component is left alone, and no other entity is
touched. -/
def worldCompileCustomShader (drv : GlDriver) (nextId : Nat) (target : Nat) :
    List EntityCS → Nat × List GlCall × List EntityCS
  | [] => (nextId, [], [])
  | e :: rest =>
    if e.id = target then
      match e.custom with
      | some cs =>
        let r := compileCustomShader drv nextId cs
        (r.1, r.2.1, ⟨e.id, some r.2.2⟩ :: rest)
      | none => (nextId, [], e :: rest)
    else
      let r := worldCompileCustomShader drv nextId target rest
      (r.1, r.2.1, e :: r.2.2)

/-- `HeldState` in src/resources.rs. -/
inductive HeldState where
  | pressed
  | held
deriving DecidableEq, Repr

/-- winit's `ElementState` as consumed by the input handlers. -/
inductive ElementState where
  | pressed
  | released
deriving DecidableEq, Repr

/-- winit's `MouseButton` as consumed by the input handlers. -/
inductive MouseButton where
  | left
  | right
  | middle
  | other (n : Nat)
deriving DecidableEq, Repr

/-- `Input` in src/resources.rs: key and mouse-button maps (`AHashMap`
embedded as finite-support functions), the mouse position (through the
`as i32` casts of `select_object`) and the mouse delta.  Keys are embedded
as naturals standing for `VirtualKeyCode` values. -/
structure Input where
  keys : Nat → Option HeldState
  mouseButtons : MouseButton → Option HeldState
  mousePos : Int × Int
  mouseDelta : Int × Int

/-- `Input::handle_keyboard_input`: `Pressed` inserts the key as freshly
pressed, `Released` removes it. -/
def Input.handleKeyboardInput (inp : Input) (k : Nat) (s : ElementState) : Input :=
  match s with
  | .pressed => { inp with keys := fun j => if j = k then some .pressed else inp.keys j }
  | .released => { inp with keys := fun j => if j = k then none else inp.keys j }

/-- `Input::handle_mouse_button_input`: `Pressed` inserts the button as
freshly pressed, `Released` removes it. -/
def Input.handleMouseButtonInput (inp : Input) (b : MouseButton) (s : ElementState) :
    Input :=
  match s with
  | .pressed =>
    { inp with mouseButtons := fun c => if c = b then some .pressed else inp.mouseButtons c }
  | .released =>
    { inp with mouseButtons := fun c => if c = b then none else inp.mouseButtons c }

/-- `Input::update_after_frame`: every key and button still in the map is
downgraded to `Held`, and the mouse delta is reset. -/
def Input.updateAfterFrame (inp : Input) : Input :=
  { inp with
    keys := fun k => (inp.keys k).map fun _ => .held
    mouseButtons := fun b => (inp.mouseButtons b).map fun _ => .held
    mouseDelta := (0, 0) }

/-- `Input::get_key_press`: true only for a key in the `Pressed` state. -/
def Input.getKeyPress (inp : Input) (k : Nat) : Bool :=
  match inp.keys k with
  | some .pressed => true
  | _ => false

/-- `Input::get_key_press_continuous`: true while the key is in the map. -/
def Input.getKeyPressContinuous (inp : Input) (k : Nat) : Bool :=
  (inp.keys k).isSome

/-- `Input::get_mouse_button_press`: true only for a button in the
`Pressed` state. -/
def Input.getMouseButtonPress (inp : Input) (b : MouseButton) : Bool :=
  match inp.mouseButtons b with
  | some .pressed => true
  | _ => false

/-- An entity as seen by `select_object` (src/systems.rs): its id, its
optional `StencilId` component and whether it carries the `Selected`
marker. -/
structure SceneEntity where
  id : Nat
  stencil : Option Nat
  selected : Bool
deriving DecidableEq, Repr

/-- The linear scan of `select_object`: the first entity whose `StencilId`
equals the readback index receives the `Selected` marker and the loop
breaks; entities without a `StencilId` component are not scanned. -/
def markFirstMatch : List SceneEntity → Nat → List SceneEntity
  | [], _ => []
  | e :: rest, idx =>
    if e.stencil = some idx then { e with selected := true } :: rest
    else e :: markFirstMatch rest idx

/-- `select_object` in src/systems.rs.  `fb` is the framebuffer readback
oracle: the `u32` the driver writes for a one-pixel `STENCIL_INDEX` /
`UNSIGNED_INT` `read_pixels` at the given coordinates (the code then takes
`u32::from_ne_bytes(bytes) as usize`, i.e. the full 32-bit value).  When
the camera is not focused and the left button is freshly pressed, all
`Selected` markers are removed, one pixel is read back at
`(x, height - y - 1)` and the first entity whose `StencilId` matches is
marked; otherwise nothing happens.  Returns the GL call trace and the
updated entities. -/
def selectObject (fb : Int → Int → Nat) (cameraFocused : Bool) (height : Int)
    (inp : Input) (world : List SceneEntity) : List GlCall × List SceneEntity :=
  if !cameraFocused && inp.getMouseButtonPress .left then
    let cleared := world.map fun e => { e with selected := false }
    let x := inp.mousePos.1
    let y := inp.mousePos.2
    let index := fb x (height - y - 1)
    ([GlCall.readPixels x (height - y - 1)], markFirstMatch cleared index)
  else ([], world)

/-- Number of entities carrying the `Selected` marker. -/
def countSelected (l : List SceneEntity) : Nat :=
  (l.filter fun e => e.selected).length

/-- `Mesh` component data relevant to the embedded fragment: the vertex
array name, the backing buffer names and the index count. -/
structure MeshComp where
  vaoId : Nat
  buffers : List Nat
  indicesLen : Nat
deriving DecidableEq, Repr

/-- An entity as seen by the render system's geometry query
(src/renderer.rs): id, optional mesh, optional custom shader, the
`Selected` marker, and the `StencilId` component it currently carries.
Transform and texture components never influence control flow and are
elided. -/
structure RenderEntity where
  id : Nat
  mesh : Option MeshComp
  customShader : Option CustomShader
  selected : Bool
  stencil : Option Nat
deriving DecidableEq, Repr

/-- The shader chosen for an entity's draw call in the geometry pass
(src/renderer.rs lines 110-114): the custom shader when present and `Ok`,
else the default geometry-pass shader. -/
def shaderForEntity (defaultShader : Shader) : Option CustomShader → Shader
  | some cs =>
    match cs.shader with
    | .ok s => s
    | .error _ => defaultShader
  | none => defaultShader

/-- One draw call of the geometry pass: the entity drawn, the program of
the shader activated for the main draw, the stencil reference written,
the vertex array bound, and whether the selected-outline redraw (which
re-binds the default geometry shader) was also issued. -/
structure DrawInfo where
  entity : Nat
  program : Nat
  stencilRef : Nat
  vaoId : Nat
  outline : Bool
deriving DecidableEq, Repr

/-- The geometry-pass loop of `render` (src/renderer.rs lines 97-181),
carrying the running `enumerate` index: each mesh entity is drawn with
stencil reference `i + 1` and then receives `StencilId(i + 1)`
(overwriting any previous value); entities without a mesh are not part
of the query and are untouched. -/
def renderAux (defaultShader : Shader) (i : Nat) :
    List RenderEntity → List DrawInfo × List RenderEntity
  | [] => ([], [])
  | e :: rest =>
    match e.mesh with
    | some m =>
      let r := renderAux defaultShader (i + 1) rest
      (⟨e.id, (shaderForEntity defaultShader e.customShader).program, i + 1,
          m.vaoId, e.selected⟩ :: r.1,
        { e with stencil := some (i + 1) } :: r.2)
    | none =>
      let r := renderAux defaultShader i rest
      (r.1, e :: r.2)

/-- The geometry pass over the whole entity list, starting the enumerate
index at 0 so the first mesh entity gets stencil id 1. -/
def renderWorld (defaultShader : Shader) (world : List RenderEntity) :
    List DrawInfo × List RenderEntity :=
  renderAux defaultShader 0 world

/-- The camera projection matrix, kept symbolic: the only operation the
embedded fragment performs on it is replacing it by
`Camera::perspective(width, height)` (src/resources.rs line 384). -/
inductive ProjectionMatrix where
  | initial
  | perspective (width height : Nat)
deriving DecidableEq, Repr

/-- The `Camera` resource, restricted to the field the resize path
mutates. -/
structure Camera where
  projection : ProjectionMatrix
deriving DecidableEq, Repr

/-- `RenderState` in src/resources.rs: the GPU object handles it owns. -/
structure RenderStateH where
  defaultDiffuse : Nat
  defaultSpecular : Nat
  shadowMapFbo : Nat
  shadowMap : Nat
  shadowMapSize : Int × Int
  depthShader : Shader
  gBuffer : Nat
  gPosition : Nat
  gNormal : Nat
  gAlbedoSpec : Nat
  gRbo : Nat
  geometryPassShader : Shader
  quadVao : MeshComp
  deferredPassShader : Shader
deriving DecidableEq, Repr

/-- The GL allocation state the resize path touches: the storage
dimensions currently allocated for each texture and renderbuffer name. -/
structure GlStorage where
  texStorage : Nat → Option (Int × Int)
  rboStorage : Nat → Option (Int × Int)

/-- A `tex_image_2d` reallocation of one texture's storage. -/
def setTexStorage (f : Nat → Option (Int × Int)) (t : Nat) (dims : Int × Int) :
    Nat → Option (Int × Int) :=
  fun u => if u = t then some dims else f u

/-- `RenderState::resize` in src/resources.rs (lines 298-349): re-issue
`tex_image_2d` for the position, normal and albedo-spec textures and
`renderbuffer_storage` for the depth-stencil renderbuffer at the new
dimensions.  No object is created or destroyed and no handle field of
`RenderState` is written. -/
def renderStateResize (st : GlStorage) (rs : RenderStateH) (w h : Nat) :
    GlStorage × List GlCall × RenderStateH :=
  let wi : Int := w
  let hi : Int := h
  let tex1 := setTexStorage st.texStorage rs.gPosition (wi, hi)
  let tex2 := setTexStorage tex1 rs.gNormal (wi, hi)
  let tex3 := setTexStorage tex2 rs.gAlbedoSpec (wi, hi)
  let rbo := fun u => if u = rs.gRbo then some (wi, hi) else st.rboStorage u
  (⟨tex3, rbo⟩,
    [GlCall.bindTexture rs.gPosition, GlCall.texImage2D wi hi,
      GlCall.bindTexture rs.gNormal, GlCall.texImage2D wi hi,
      GlCall.bindTexture rs.gAlbedoSpec, GlCall.texImage2D wi hi,
      GlCall.bindRenderbuffer rs.gRbo, GlCall.renderbufferStorage wi hi],
    rs)

/-- `resize` in src/game_logic.rs (lines 192-213): when both dimensions
are non-zero, update the camera projection to `Camera::perspective` of the
new size and reallocate the render-state storage; when either dimension is
zero, do nothing at all. -/
def gameResize (st : GlStorage) (cam : Camera) (rs : RenderStateH) (w h : Nat) :
    GlStorage × List GlCall × Camera × RenderStateH :=
  if w ≠ 0 ∧ h ≠ 0 then
    let cam' : Camera := ⟨ProjectionMatrix.perspective w h⟩
    let r := renderStateResize st rs w h
    (r.1, r.2.1, cam', r.2.2)
  else (st, [], cam, rs)

/-- An entity as seen by `despawn_and_destroy` (src/commands.rs): id,
optional `Mesh` and optional `CustomShader`. -/
structure WorldEntity where
  id : Nat
  mesh : Option MeshComp
  custom : Option CustomShader
deriving DecidableEq, Repr

/-- Actions performed by `despawn_and_destroy`: GL deletions and the
final ECS despawn. -/
inductive WorldAction where
  | gl (c : GlCall)
  | despawn (id : Nat)
deriving DecidableEq, Repr

/-- `destroy` on a mesh's GPU data (src/vao.rs lines 42-51): delete each
backing buffer, then the vertex array. -/
def meshDestroyCalls (m : MeshComp) : List GlCall :=
  m.buffers.map GlCall.deleteBuffer ++ [GlCall.deleteVertexArray m.vaoId]

/-- `despawn_and_destroy` in src/commands.rs (lines 53-68): destroy the
entity's mesh buffers and vertex array if it has a `Mesh`, destroy its
custom shader program if it has a `CustomShader` whose result is `Ok`,
then despawn the entity. -/
def despawnAndDestroy (target : Nat) (world : List WorldEntity) :
    List WorldAction × List WorldEntity :=
  let calls :=
    match world.find? fun e => e.id == target with
    | some e =>
      (match e.mesh with
        | some m => (meshDestroyCalls m).map WorldAction.gl
        | none => []) ++
      (match e.custom with
        | some cs =>
          match cs.shader with
          | .ok s => [WorldAction.gl (GlCall.deleteProgram s.program)]
          | .error _ => []
        | none => [])
    | none => []
  (calls ++ [WorldAction.despawn target], world.filter fun e => e.id != target)

/-! Concrete inputs used by witnesses and counterexamples. -/

/-- A driver whose link step fails with log "no main". -/
def drvLinkFailW : GlDriver :=
  ⟨true, "", true, "", fun _ _ => true, fun _ _ => "", false, "no main"⟩

/-- A driver for which everything succeeds. -/
def drvAllOkW : GlDriver :=
  ⟨true, "", true, "", fun _ _ => true, fun _ _ => "", true, ""⟩

/-- A driver that rejects fragment sources with a syntax-error log. -/
def drvFragFailW : GlDriver :=
  ⟨true, "", true, "",
    fun t _ => match t with | .vertex => true | .fragment => false,
    fun _ _ => "0:1: syntax error", true, ""⟩

/-- A custom-shader component currently holding a working program 5. -/
def csPrevW : CustomShader := ⟨.ok (Shader.new 5), "v", "f"⟩

/-- An input state with key 0 and the left button currently down (fresh). -/
def inpHeldW : Input :=
  ⟨fun k => if k = 0 then some .pressed else none,
    fun b => if b = .left then some .pressed else none, (0, 0), (0, 0)⟩

/-- An input state with nothing pressed and mouse at (3, 3). -/
def emptyInputW : Input := ⟨fun _ => none, fun _ => none, (3, 3), (0, 0)⟩

/-- An input state with a fresh left click and mouse at (3, 3). -/
def inpClickW : Input :=
  ⟨fun _ => none, fun b => if b = .left then some .pressed else none, (3, 3), (0, 0)⟩

/-- A framebuffer whose pixel (3, 96) holds stencil value 2. -/
def fbW : Int → Int → Nat := fun x y => if x = 3 ∧ y = 96 then 2 else 0

/-- A framebuffer that reads 1 everywhere. -/
def fbOneW : Int → Int → Nat := fun _ _ => 1

/-- Two pickable entities; entity 1 is currently selected. -/
def worldSelW : List SceneEntity := [⟨1, some 1, true⟩, ⟨2, some 2, false⟩]

/-- One pickable entity with stencil id 1, not selected. -/
def worldPickW : List SceneEntity := [⟨7, some 1, false⟩]

/-- A default geometry-pass shader with program 100. -/
def dfW : Shader := Shader.new 100

/-- Three entities: two with meshes (the first carrying a stale stencil id
from a previous frame, the second with a failed custom shader), one
without a mesh. -/
def worldRenderW : List RenderEntity :=
  [⟨1, some ⟨50, [51], 36⟩, none, false, some 9⟩,
    ⟨2, none, none, false, none⟩,
    ⟨3, some ⟨60, [61], 36⟩, some ⟨.error "bad", "v", "f"⟩, true, none⟩]

/-- An empty GL storage map. -/
def st0 : GlStorage := ⟨fun _ => none, fun _ => none⟩

/-- A camera with the startup projection. -/
def cam0 : Camera := ⟨.initial⟩

/-- A render state with distinct handles for every GPU object. -/
def rs0 : RenderStateH :=
  ⟨1, 2, 3, 4, (4096, 4096), Shader.new 5, 6, 7, 8, 9, 10, Shader.new 11,
    ⟨12, [13, 14, 15, 16], 6⟩, Shader.new 17⟩

/-- A world with one fully equipped entity and one bare entity. -/
def worldDespawnW : List WorldEntity :=
  [⟨1, some ⟨50, [51, 52, 53, 54], 36⟩, some ⟨.ok (Shader.new 70), "v", "f"⟩⟩,
    ⟨2, none, none⟩]

/-! Helper lemmas. -/

lemma append_ne_empty_of_left (a b : String) (h : 0 < a.length) : a ++ b ≠ "" := by
  intro hc
  have h2 : (a ++ b).length = 0 := by rw [hc]; rfl
  rw [String.length_append] at h2
  omega

/-- Claim C7: for every link operation, on successful linking every
intermediate per-stage shader object that was added is deleted and a
`Shader` wrapping the linked program is returned; on link failure the
program object itself is deleted (as the last GL call before the error is
returned) and the error carries the driver's info log — no program handle
is leaked either way. -/
theorem link_no_program_leak (drv : GlDriver) (nextId : Nat) (b : ShaderBuilder)
    (hc : drv.createProgramOk = true) :
    (drv.linkOk = true →
      (link drv nextId b).val = Except.ok (Shader.new nextId) ∧
      (∀ s ∈ b.shaders, GlCall.deleteShader s ∈ (link drv nextId b).calls) ∧
      GlCall.deleteProgram nextId ∉ (link drv nextId b).calls) ∧
    (drv.linkOk = false →
      (link drv nextId b).val
        = Except.error ("shader program linking failed:\n" ++ drv.programInfoLog) ∧
      (link drv nextId b).calls.getLast? = some (GlCall.deleteProgram nextId)) := by
  constructor
  · intro hl
    have hval : (link drv nextId b).val = Except.ok (Shader.new nextId) := by
      simp [link, hc, hl]
    have hcalls : (link drv nextId b).calls
        = GlCall.createProgram nextId :: b.shaders.map (GlCall.attachShader nextId)
          ++ [GlCall.linkProgram nextId] ++ b.shaders.map GlCall.deleteShader := by
      simp [link, hc, hl]
    refine ⟨hval, ?_, ?_⟩
    · intro s hs
      rw [hcalls]
      exact List.mem_cons_of_mem _
        (List.mem_append_right _ (List.mem_map_of_mem _ hs))
    · rw [hcalls]
      simp
  · intro hl
    have hval : (link drv nextId b).val
        = Except.error ("shader program linking failed:\n" ++ drv.programInfoLog) := by
      simp [link, hc, hl]
    have hcalls : (link drv nextId b).calls
        = (GlCall.createProgram nextId :: b.shaders.map (GlCall.attachShader nextId)
          ++ [GlCall.linkProgram nextId]) ++ [GlCall.deleteProgram nextId] := by
      simp [link, hc, hl]
    refine ⟨hval, ?_⟩
    rw [hcalls]
    exact List.getLast?_concat _

/-- Claim C7 witness: linking with a failing driver deletes the program
object last and returns the driver's log. -/
theorem link_no_program_leak_w :
    (link drvLinkFailW 10 ⟨[7, 8]⟩).val
      = Except.error ("shader program linking failed:\n" ++ "no main") ∧
    (link drvLinkFailW 10 ⟨[7, 8]⟩).calls.getLast? = some (GlCall.deleteProgram 10) :=
  (link_no_program_leak drvLinkFailW 10 ⟨[7, 8]⟩ rfl).2 rfl

/-- Claim C9: input press queries are edge-triggered: after
`update_after_frame`, `get_key_press` and `get_mouse_button_press` return
false until a fresh `Pressed` event is handled (a held key is reported as
`Held`), while `get_key_press_continuous` keeps returning true for a held
key until a `Released` event removes it. -/
theorem input_press_edge_triggered (inp : Input) (k : Nat) (b : MouseButton)
    (h : inp.getKeyPressContinuous k = true) :
    inp.updateAfterFrame.getKeyPress k = false ∧
    inp.updateAfterFrame.getMouseButtonPress b = false ∧
    inp.updateAfterFrame.getKeyPressContinuous k = true ∧
    inp.updateAfterFrame.keys k = some HeldState.held ∧
    (inp.handleKeyboardInput k .released).getKeyPressContinuous k = false ∧
    (inp.handleKeyboardInput k .pressed).getKeyPress k = true ∧
    (inp.handleMouseButtonInput b .released).getMouseButtonPress b = false ∧
    (inp.handleMouseButtonInput b .pressed).getMouseButtonPress b = true := by
  refine ⟨?_, ?_, ?_, ?_, ?_, ?_, ?_, ?_⟩
  · cases hk : inp.keys k <;>
      simp [Input.updateAfterFrame, Input.getKeyPress, hk]
  · cases hb : inp.mouseButtons b <;>
      simp [Input.updateAfterFrame, Input.getMouseButtonPress, hb]
  · simp only [Input.getKeyPressContinuous, Input.updateAfterFrame] at h ⊢
    simpa using h
  · simp only [Input.getKeyPressContinuous, Option.isSome_iff_exists] at h
    obtain ⟨v, hv⟩ := h
    simp [Input.updateAfterFrame, hv]
  · simp [Input.handleKeyboardInput, Input.getKeyPressContinuous]
  · simp [Input.handleKeyboardInput, Input.getKeyPress]
  · simp [Input.handleMouseButtonInput, Input.getMouseButtonPress]
  · simp [Input.handleMouseButtonInput, Input.getMouseButtonPress]

/-- Claim C9 witness: with key 0 held, the end-of-frame update downgrades
it so the one-shot press query turns false, and a fresh press turns it
back on. -/
theorem input_press_edge_triggered_w :
    inpHeldW.getKeyPressContinuous 0 = true ∧
    inpHeldW.updateAfterFrame.getKeyPress 0 = false ∧
    inpHeldW.updateAfterFrame.getKeyPressContinuous 0 = true ∧
    (inpHeldW.handleKeyboardInput 0 .pressed).getKeyPress 0 = true :=
  ⟨by decide, (input_press_edge_triggered inpHeldW 0 .left (by decide)).1,
    (input_press_edge_triggered inpHeldW 0 .left (by decide)).2.2.1,
    (input_press_edge_triggered inpHeldW 0 .left (by decide)).2.2.2.2.2.1⟩

/-- Claim C8: for a resize with both dimensions non-zero, the G-buffer
position, normal and albedo-spec textures and the depth-stencil
renderbuffer are reallocated to the new dimensions with no GPU object
created and no handle field of `RenderState` changed, other storage is
untouched, and the camera projection becomes the perspective matrix for
the new size; with either dimension zero, the whole operation is a no-op
with no GL calls. -/
theorem resize_reallocates_in_place (st : GlStorage) (cam : Camera)
    (rs : RenderStateH) (w h : Nat) :
    (w ≠ 0 → h ≠ 0 →
      (gameResize st cam rs w h).2.2.2 = rs ∧
      (gameResize st cam rs w h).1.texStorage rs.gPosition = some ((w : Int), (h : Int)) ∧
      (gameResize st cam rs w h).1.texStorage rs.gNormal = some ((w : Int), (h : Int)) ∧
      (gameResize st cam rs w h).1.texStorage rs.gAlbedoSpec = some ((w : Int), (h : Int)) ∧
      (gameResize st cam rs w h).1.rboStorage rs.gRbo = some ((w : Int), (h : Int)) ∧
      (∀ t, t ≠ rs.gPosition → t ≠ rs.gNormal → t ≠ rs.gAlbedoSpec →
        (gameResize st cam rs w h).1.texStorage t = st.texStorage t) ∧
      (∀ r, r ≠ rs.gRbo → (gameResize st cam rs w h).1.rboStorage r = st.rboStorage r) ∧
      (∀ c ∈ (gameResize st cam rs w h).2.1, ∀ n, c ≠ GlCall.createTexture n ∧
        c ≠ GlCall.createRenderbuffer n ∧ c ≠ GlCall.createFramebuffer n) ∧
      (gameResize st cam rs w h).2.2.1.projection = ProjectionMatrix.perspective w h) ∧
    (w = 0 ∨ h = 0 → gameResize st cam rs w h = (st, [], cam, rs)) := by
  constructor
  · intro hw hh
    have hif : gameResize st cam rs w h
        = ((renderStateResize st rs w h).1, (renderStateResize st rs w h).2.1,
          ⟨ProjectionMatrix.perspective w h⟩, (renderStateResize st rs w h).2.2) := by
      simp [gameResize, hw, hh]
    rw [hif]
    refine ⟨rfl, ?_, ?_, ?_, ?_, ?_, ?_, ?_, rfl⟩
    · simp only [renderStateResize, setTexStorage]
      split_ifs <;> simp_all
    · simp only [renderStateResize, setTexStorage]
      split_ifs <;> simp_all
    · simp only [renderStateResize, setTexStorage]
      split_ifs <;> simp_all
    · simp [renderStateResize]
    · intro t h1 h2 h3
      simp [renderStateResize, setTexStorage, h1, h2, h3]
    · intro r hr
      simp [renderStateResize, hr]
    · intro c hc n
      simp only [renderStateResize, List.mem_cons, List.not_mem_nil, or_false] at hc
      rcases hc with rfl | rfl | rfl | rfl | rfl | rfl | rfl | rfl <;> simp
  · intro h0
    have hnot : ¬(w ≠ 0 ∧ h ≠ 0) := by tauto
    simp [gameResize, hnot]

/-- Claim C8 witness: a 800×600 resize reallocates the position texture
and updates the projection; a resize to width 0 is a no-op. -/
theorem resize_reallocates_in_place_w :
    (gameResize st0 cam0 rs0 800 600).1.texStorage rs0.gPosition = some (800, 600) ∧
    (gameResize st0 cam0 rs0 800 600).2.2.1.projection
      = ProjectionMatrix.perspective 800 600 ∧
    gameResize st0 cam0 rs0 0 600 = (st0, [], cam0, rs0) :=
  ⟨((resize_reallocates_in_place st0 cam0 rs0 800 600).1 (by decide) (by decide)).2.1,
    ((resize_reallocates_in_place st0 cam0 rs0 800 600).1 (by decide)
      (by decide)).2.2.2.2.2.2.2.2,
    (resize_reallocates_in_place st0 cam0 rs0 0 600).2 (Or.inl rfl)⟩

lemma countSelected_cons (e : SceneEntity) (l : List SceneEntity) :
    countSelected (e :: l) = (if e.selected then 1 else 0) + countSelected l := by
  cases he : e.selected <;> simp [countSelected, List.filter_cons, he, Nat.add_comm]

lemma countSelected_clear (world : List SceneEntity) :
    countSelected (world.map fun e => { e with selected := false }) = 0 := by
  induction world with
  | nil => rfl
  | cons e rest ih =>
    rw [List.map_cons, countSelected_cons]
    simpa using ih

lemma countSelected_mark (l : List SceneEntity) (idx : Nat) :
    countSelected (markFirstMatch l idx) ≤ countSelected l + 1 := by
  induction l with
  | nil => simp [markFirstMatch, countSelected]
  | cons e rest ih =>
    by_cases hm : e.stencil = some idx
    · simp only [markFirstMatch]
      rw [if_pos hm, countSelected_cons, countSelected_cons]
      cases he : e.selected <;> (simp; try omega)
    · simp only [markFirstMatch]
      rw [if_neg hm, countSelected_cons, countSelected_cons]
      cases he : e.selected <;> (simp; omega)

lemma mark_selected_only (l : List SceneEntity) (idx : Nat)
    (hall : ∀ e ∈ l, e.selected = false) :
    ∀ e ∈ markFirstMatch l idx, e.selected = true → e.stencil = some idx := by
  induction l with
  | nil => simp [markFirstMatch]
  | cons a rest ih =>
    by_cases hm : a.stencil = some idx
    · intro e he hsel
      simp only [markFirstMatch, hm, if_pos] at he
      rcases List.mem_cons.1 he with rfl | hmem
      · simp
      · exact absurd hsel (by simp [hall e (List.mem_cons_of_mem _ hmem)])
    · intro e he hsel
      simp only [markFirstMatch, hm, if_false] at he
      rcases List.mem_cons.1 he with rfl | hmem
      · exact absurd hsel (by simp [hall e (List.mem_cons_self _ _)])
      · exact ih (fun x hx => hall x (List.mem_cons_of_mem _ hx)) e hmem hsel

lemma mark_no_match (l : List SceneEntity) (idx : Nat)
    (hnone : ∀ e ∈ l, e.stencil ≠ some idx) :
    markFirstMatch l idx = l := by
  induction l with
  | nil => rfl
  | cons a rest ih =>
    have ha : a.stencil ≠ some idx := hnone a (List.mem_cons_self _ _)
    simp only [markFirstMatch, ha, if_false]
    rw [ih fun x hx => hnone x (List.mem_cons_of_mem _ hx)]

/-- Claim C4: at most one entity carries the `Selected` marker at any
time: when the selection operation runs, every previously selected entity
is cleared before the newly picked entity (if any) is marked, so any
entity still selected afterwards is the picked one, and the
single-selection invariant is preserved at every step. -/
theorem select_object_single_selection (fb : Int → Int → Nat)
    (cameraFocused : Bool) (height : Int) (inp : Input)
    (world : List SceneEntity) (h : countSelected world ≤ 1) :
    countSelected (selectObject fb cameraFocused height inp world).2 ≤ 1 ∧
    (cameraFocused = false → inp.getMouseButtonPress .left = true →
      ∀ e ∈ (selectObject fb cameraFocused height inp world).2, e.selected = true →
        e.stencil = some (fb inp.mousePos.1 (height - inp.mousePos.2 - 1))) ∧
    (cameraFocused = true ∨ inp.getMouseButtonPress .left = false →
      (selectObject fb cameraFocused height inp world).2 = world) := by
  by_cases hcond : (!cameraFocused && inp.getMouseButtonPress .left) = true
  · have hr : (selectObject fb cameraFocused height inp world).2
        = markFirstMatch (world.map fun e => { e with selected := false })
          (fb inp.mousePos.1 (height - inp.mousePos.2 - 1)) := by
      simp [selectObject, hcond]
    refine ⟨?_, ?_, ?_⟩
    · rw [hr]
      calc countSelected _ ≤ countSelected (world.map fun e => { e with selected := false }) + 1 :=
            countSelected_mark _ _
        _ = 1 := by rw [countSelected_clear]
    · intro _ _ e he hsel
      rw [hr] at he
      refine mark_selected_only _ _ ?_ e he hsel
      intro x hx
      rcases List.mem_map.1 hx with ⟨y, _, rfl⟩
      rfl
    · intro hoff
      simp only [Bool.and_eq_true, Bool.not_eq_true'] at hcond
      rcases hoff with hf | hp
      · rw [hf] at hcond
        simp at hcond
      · rw [hp] at hcond
        simp at hcond
  · have hr : selectObject fb cameraFocused height inp world = ([], world) := by
      rw [selectObject, if_neg hcond]
    refine ⟨?_, ?_, ?_⟩
    · rw [hr]
      exact h
    · intro hf hp
      exact absurd (by rw [hf, hp]; rfl) hcond
    · intro _
      rw [hr]

/-- Claim C4 witness: starting with entity 1 selected, a click that picks
entity 2 leaves at most one selected entity. -/
theorem select_object_single_selection_w :
    countSelected worldSelW ≤ 1 ∧
    countSelected (selectObject fbW false 100 inpClickW worldSelW).2 ≤ 1 ∧
    (selectObject fbW true 100 inpClickW worldSelW).2 = worldSelW :=
  ⟨by decide,
    (select_object_single_selection fbW false 100 inpClickW worldSelW (by decide)).1,
    (select_object_single_selection fbW true 100 inpClickW worldSelW
      (by decide)).2.2 (Or.inl rfl)⟩

/-- Claim C5: a triggered pick reads back exactly one pixel at
`(x, height - y - 1)`, resolves the readback (whose low 8 bits equal the
full value, since an 8-bit stencil readback is below 256) by a linear scan
over the entities' `StencilId` components, matches no entity when the
readback is 0 and ids start at 1, and silently selects nothing when no
entity matches. -/
theorem select_object_pick_readback (fb : Int → Int → Nat) (height : Int)
    (inp : Input) (world : List SceneEntity)
    (h1 : inp.getMouseButtonPress .left = true)
    (h2 : fb inp.mousePos.1 (height - inp.mousePos.2 - 1) < 256) :
    (selectObject fb false height inp world).1
      = [GlCall.readPixels inp.mousePos.1 (height - inp.mousePos.2 - 1)] ∧
    (selectObject fb false height inp world).2
      = markFirstMatch (world.map fun e => { e with selected := false })
          (fb inp.mousePos.1 (height - inp.mousePos.2 - 1) % 256) ∧
    ((∀ e ∈ world, ∀ k, e.stencil = some k → 1 ≤ k) →
      fb inp.mousePos.1 (height - inp.mousePos.2 - 1) = 0 →
      (selectObject fb false height inp world).2
        = world.map fun e => { e with selected := false }) ∧
    ((∀ e ∈ world, e.stencil ≠ some (fb inp.mousePos.1 (height - inp.mousePos.2 - 1))) →
      (selectObject fb false height inp world).2
        = world.map fun e => { e with selected := false }) := by
  have hcond : (!false && inp.getMouseButtonPress .left) = true := by
    rw [h1]; rfl
  have hfst : (selectObject fb false height inp world).1
      = [GlCall.readPixels inp.mousePos.1 (height - inp.mousePos.2 - 1)] := by
    rw [selectObject, if_pos hcond]
  have hsnd : (selectObject fb false height inp world).2
      = markFirstMatch (world.map fun e => { e with selected := false })
        (fb inp.mousePos.1 (height - inp.mousePos.2 - 1)) := by
    rw [selectObject, if_pos hcond]
  refine ⟨hfst, ?_, ?_, ?_⟩
  · rw [hsnd, Nat.mod_eq_of_lt h2]
  · intro hge h0
    rw [hsnd, h0]
    refine mark_no_match _ _ ?_
    intro e he hz
    rcases List.mem_map.1 he with ⟨y, hy, rfl⟩
    have : (1 : Nat) ≤ 0 := hge y hy 0 (by simpa using hz)
    omega
  · intro hno
    rw [hsnd]
    refine mark_no_match _ _ ?_
    intro e he
    rcases List.mem_map.1 he with ⟨y, hy, rfl⟩
    simpa using hno y hy

/-- Claim C5 witness: a click at (3, 3) with window height 100 reads the
pixel at (3, 96), whose stencil value 2 picks entity 2 by linear scan. -/
theorem select_object_pick_readback_w :
    inpClickW.getMouseButtonPress .left = true ∧
    (selectObject fbW false 100 inpClickW worldSelW).1
      = [GlCall.readPixels inpClickW.mousePos.1 (100 - inpClickW.mousePos.2 - 1)] ∧
    (selectObject fbW false 100 inpClickW worldSelW).2
      = markFirstMatch (worldSelW.map fun e => { e with selected := false })
          (fbW inpClickW.mousePos.1 (100 - inpClickW.mousePos.2 - 1) % 256) :=
  ⟨by decide, (select_object_pick_readback fbW 100 inpClickW worldSelW
      (by decide) (by decide)).1,
    (select_object_pick_readback fbW 100 inpClickW worldSelW
      (by decide) (by decide)).2.1⟩

/-- Claim C6 counterexample: the claim says picking runs exactly on a left
mouse button release (camera not in fly-mode).  In the input state
immediately after a left `Released` event the pick does not run — no
readback, no selection change, even though entity 7 would match — while in
the state after a left `Pressed` event (no release has occurred) the pick
does run and selects entity 7. -/
theorem select_object_release_cex :
    selectObject fbOneW false 100 (emptyInputW.handleMouseButtonInput .left .released)
        worldPickW = ([], worldPickW) ∧
    (selectObject fbOneW false 100 (emptyInputW.handleMouseButtonInput .left .pressed)
        worldPickW).2 = [⟨7, some 1, true⟩] ∧
    (selectObject fbOneW false 100 (emptyInputW.handleMouseButtonInput .left .pressed)
        worldPickW).1 ≠ [] := by
  refine ⟨?_, ?_, ?_⟩ <;> decide

/-- Claim C6 amended: the pick operation runs exactly when the camera is
not in fly-mode and the left mouse button is freshly pressed (a `Pressed`
event handled since the last end-of-frame update); a `Released` event
removes the button so it does not trigger, a held button (after
`update_after_frame`) does not trigger, and when the trigger is false no
pixel readback or selection change happens. -/
theorem select_object_press_trigger (fb : Int → Int → Nat)
    (cameraFocused : Bool) (height : Int) (inp : Input)
    (world : List SceneEntity) :
    (cameraFocused = true →
      selectObject fb cameraFocused height inp world = ([], world)) ∧
    (inp.mouseButtons .left ≠ some HeldState.pressed →
      selectObject fb cameraFocused height inp world = ([], world)) ∧
    ((inp.handleMouseButtonInput .left .released).getMouseButtonPress .left = false) ∧
    (inp.updateAfterFrame.getMouseButtonPress .left = false) ∧
    ((inp.handleMouseButtonInput .left .pressed).getMouseButtonPress .left = true) ∧
    (cameraFocused = false → inp.mouseButtons .left = some HeldState.pressed →
      (selectObject fb cameraFocused height inp world).1
        = [GlCall.readPixels inp.mousePos.1 (height - inp.mousePos.2 - 1)]) := by
  refine ⟨?_, ?_, ?_, ?_, ?_, ?_⟩
  · intro hf
    subst hf
    rw [selectObject, if_neg]
    simp
  · intro hnp
    rw [selectObject, if_neg]
    intro hc
    have hp : inp.getMouseButtonPress .left = true := by
      simp only [Bool.and_eq_true] at hc
      exact hc.2
    rw [Input.getMouseButtonPress] at hp
    revert hp
    cases hb : inp.mouseButtons .left with
    | none => simp
    | some s =>
      cases s with
      | pressed => exact absurd hb hnp
      | held => simp
  · simp [Input.handleMouseButtonInput, Input.getMouseButtonPress]
  · cases hb : inp.mouseButtons .left <;>
      simp [Input.updateAfterFrame, Input.getMouseButtonPress, hb]
  · simp [Input.handleMouseButtonInput, Input.getMouseButtonPress]
  · intro hf hp
    subst hf
    rw [selectObject, if_pos]
    rw [Input.getMouseButtonPress, hp]
    rfl

/-- Claim C6 amended witness: with the camera in fly-mode nothing
happens; a release clears the trigger; with a fresh press and the camera
free, the single-pixel readback at the Y-flipped coordinate is issued. -/
theorem select_object_press_trigger_w :
    selectObject fbOneW true 100 inpClickW worldPickW = ([], worldPickW) ∧
    (inpClickW.handleMouseButtonInput .left .released).getMouseButtonPress .left
      = false ∧
    (selectObject fbOneW false 100 inpClickW worldPickW).1
      = [GlCall.readPixels inpClickW.mousePos.1 (100 - inpClickW.mousePos.2 - 1)] :=
  ⟨(select_object_press_trigger fbOneW true 100 inpClickW worldPickW).1 rfl,
    (select_object_press_trigger fbOneW true 100 inpClickW worldPickW).2.2.1,
    (select_object_press_trigger fbOneW false 100 inpClickW worldPickW).2.2.2.2.2
      rfl (by decide)⟩

lemma renderAux_stencils (df : Shader) (world : List RenderEntity) :
    ∀ i : Nat,
      (((renderAux df i world).2.filter fun e => e.mesh.isSome).map fun e => e.stencil)
        = (List.range' (i + 1) ((world.filter fun e => e.mesh.isSome).length)).map some := by
  induction world with
  | nil => intro i; simp [renderAux]
  | cons e rest ih =>
    intro i
    cases hm : e.mesh with
    | some m =>
      simp only [renderAux, hm, List.filter_cons]
      have hupd : ({ e with stencil := some (i + 1) } : RenderEntity).mesh.isSome = true := by
        simp [hm]
      simp only [hm, Option.isSome_some, if_pos, hupd, List.length_cons,
        List.range'_succ, List.map_cons]
      rw [ih (i + 1)]
    | none =>
      simp only [renderAux, hm, List.filter_cons, Option.isSome_none]
      simpa using ih i

lemma renderAux_length (df : Shader) (world : List RenderEntity) :
    ∀ i : Nat, (renderAux df i world).2.length = world.length := by
  induction world with
  | nil => intro i; simp [renderAux]
  | cons e rest ih =>
    intro i
    cases hm : e.mesh <;> simp [renderAux, hm, ih]

lemma renderAux_nonmesh (df : Shader) (world : List RenderEntity) :
    ∀ (i j : Nat) (e : RenderEntity),
      world[j]? = some e → e.mesh = none → ((renderAux df i world).2)[j]? = some e := by
  induction world with
  | nil => intro i j e hj; simp at hj
  | cons a rest ih =>
    intro i j e hj he
    cases j with
    | zero =>
      simp only [List.getElem?_cons_zero, Option.some_inj] at hj
      subst hj
      simp [renderAux, he]
    | succ j2 =>
      simp only [List.getElem?_cons_succ] at hj
      cases hm : a.mesh <;> simp only [renderAux, hm, List.getElem?_cons_succ] <;>
        exact ih _ _ _ hj he

lemma renderAux_draw_src (df : Shader) (world : List RenderEntity) :
    ∀ (i : Nat) (d : DrawInfo), d ∈ (renderAux df i world).1 →
      ∃ e ∈ world, e.id = d.entity ∧ e.mesh.isSome
        ∧ d.program = (shaderForEntity df e.customShader).program := by
  induction world with
  | nil => intro i d hd; simp [renderAux] at hd
  | cons a rest ih =>
    intro i d hd
    cases hm : a.mesh with
    | some m =>
      simp only [renderAux, hm, List.mem_cons] at hd
      rcases hd with rfl | hd
      · exact ⟨a, List.mem_cons_self _ _, rfl, by simp [hm], rfl⟩
      · obtain ⟨e, he, h1, h2, h3⟩ := ih _ _ hd
        exact ⟨e, List.mem_cons_of_mem _ he, h1, h2, h3⟩
    | none =>
      simp only [renderAux, hm] at hd
      obtain ⟨e, he, h1, h2, h3⟩ := ih _ _ hd
      exact ⟨e, List.mem_cons_of_mem _ he, h1, h2, h3⟩

lemma renderAux_draw_exists (df : Shader) (world : List RenderEntity) :
    ∀ (i : Nat) (e : RenderEntity), e ∈ world → e.mesh.isSome →
      ∃ d ∈ (renderAux df i world).1, d.entity = e.id := by
  induction world with
  | nil => intro i e he; simp at he
  | cons a rest ih =>
    intro i e he hmesh
    rcases List.mem_cons.1 he with rfl | hmem
    · obtain ⟨m, hm⟩ := Option.isSome_iff_exists.1 hmesh
      refine ⟨⟨e.id, (shaderForEntity df e.customShader).program, i + 1, m.vaoId,
        e.selected⟩, ?_, rfl⟩
      simp [renderAux, hm]
    · cases hm : a.mesh with
      | some m =>
        obtain ⟨d, hd, hde⟩ := ih (i + 1) e hmem hmesh
        exact ⟨d, by simp only [renderAux, hm]; exact List.mem_cons_of_mem _ hd, hde⟩
      | none =>
        obtain ⟨d, hd, hde⟩ := ih i e hmem hmesh
        exact ⟨d, by simp only [renderAux, hm]; exact hd, hde⟩

/-- Claim C1: the geometry pass assigns `StencilId` components to exactly
the mesh entities drawn that frame, in iteration order starting at 1 (the
i-th mesh entity gets id i+1, overwriting any previous `StencilId`
regardless of its value), so the mesh entities' stencil ids are precisely
1..N in order for N mesh entities — pairwise distinct and within [1, N] —
while entities without a mesh are untouched. -/
theorem render_assigns_fresh_stencil_ids (df : Shader) (world : List RenderEntity)
    (j : Nat) (e : RenderEntity) (hj : world[j]? = some e) :
    (((renderWorld df world).2.filter fun x => x.mesh.isSome).map fun x => x.stencil)
      = (List.range' 1 ((world.filter fun x => x.mesh.isSome).length)).map some ∧
    ((((renderWorld df world).2.filter fun x => x.mesh.isSome).map
        fun x => x.stencil)).Nodup ∧
    (∀ v ∈ ((renderWorld df world).2.filter fun x => x.mesh.isSome).map
        fun x => x.stencil,
      ∃ m, v = some m ∧ 1 ≤ m ∧ m ≤ (world.filter fun x => x.mesh.isSome).length) ∧
    (renderWorld df world).2.length = world.length ∧
    (e.mesh = none → ((renderWorld df world).2)[j]? = some e) := by
  have hmain := renderAux_stencils df world 0
  refine ⟨hmain, ?_, ?_, renderAux_length df world 0, ?_⟩
  · rw [renderWorld]
    rw [hmain]
    exact (List.nodup_range' _ _).map fun a b hab => Option.some_inj.1 hab
  · intro v hv
    rw [renderWorld] at hv
    rw [hmain] at hv
    rcases List.mem_map.1 hv with ⟨m, hm, rfl⟩
    have := List.mem_range'_1.1 hm
    exact ⟨m, rfl, this.1, by omega⟩
  · intro he
    exact renderAux_nonmesh df world 0 j e hj he

/-- Claim C1 witness: in a world with two mesh entities (the first
carrying a stale stencil id 9) and one mesh-less entity, the pass yields
stencil ids 1, 2 in order and leaves the mesh-less entity untouched. -/
theorem render_assigns_fresh_stencil_ids_w :
    (((renderWorld dfW worldRenderW).2.filter fun x => x.mesh.isSome).map
        fun x => x.stencil)
      = (List.range' 1 ((worldRenderW.filter fun x => x.mesh.isSome).length)).map some ∧
    ((renderWorld dfW worldRenderW).2)[1]? = some ⟨2, none, none, false, none⟩ := by
  have h := render_assigns_fresh_stencil_ids dfW worldRenderW 1
    ⟨2, none, none, false, none⟩ (by decide)
  exact ⟨h.1, h.2.2.2.2 rfl⟩

/-- Claim C3: for every draw of the geometry pass, the program bound is
the entity's custom shader exactly when a `CustomShader` component is
present with an `Ok` compile result; when the component is absent or its
result is an error, the default geometry-pass shader is bound, so a failed
compile's program is never used — and every mesh entity is drawn. -/
theorem render_binds_ok_custom_shader (df : Shader) (world : List RenderEntity)
    (d : DrawInfo) (hd : d ∈ (renderWorld df world).1) :
    (∃ e ∈ world, e.id = d.entity ∧ e.mesh.isSome ∧
      ((∃ cs s, e.customShader = some cs ∧ cs.shader = .ok s ∧ d.program = s.program) ∨
        ((e.customShader = none ∨
            ∃ cs err, e.customShader = some cs ∧ cs.shader = .error err) ∧
          d.program = df.program))) ∧
    (∀ e ∈ world, e.mesh.isSome → ∃ d2 ∈ (renderWorld df world).1, d2.entity = e.id) := by
  constructor
  · obtain ⟨e, he, h1, h2, h3⟩ := renderAux_draw_src df world 0 d hd
    refine ⟨e, he, h1, h2, ?_⟩
    cases hcs : e.customShader with
    | none =>
      right
      refine ⟨Or.inl rfl, ?_⟩
      rw [h3, hcs, shaderForEntity]
    | some cs =>
      cases hcss : cs.shader with
      | ok s =>
        left
        refine ⟨cs, s, rfl, hcss, ?_⟩
        rw [h3, hcs]
        simp [shaderForEntity, hcss]
      | error err =>
        right
        refine ⟨Or.inr ⟨cs, err, rfl, hcss⟩, ?_⟩
        rw [h3, hcs]
        simp [shaderForEntity, hcss]
  · intro e he hmesh
    exact renderAux_draw_exists df world 0 e he hmesh

/-- Claim C3 witness: the two draws of the witness world both bind the
default shader — the first entity has no custom shader and the second's
compile result is an error. -/
theorem render_binds_ok_custom_shader_w :
    (∃ e ∈ worldRenderW, e.id = (1 : Nat) ∧ e.mesh.isSome ∧
      ((∃ cs s, e.customShader = some cs ∧ cs.shader = .ok s ∧ dfW.program = s.program) ∨
        ((e.customShader = none ∨
            ∃ cs err, e.customShader = some cs ∧ cs.shader = .error err) ∧
          dfW.program = dfW.program))) := by
  have h := render_binds_ok_custom_shader dfW worldRenderW
    ⟨1, dfW.program, 1, 50, false⟩ (by decide)
  exact h.1

lemma addShaderSource_error_ne_empty (drv : GlDriver) (nextId : Nat)
    (b : ShaderBuilder) (source : String) (t : ShaderType) (e : String)
    (he : (addShaderSource drv nextId b source t).val = .error e) : e ≠ "" := by
  rw [addShaderSource] at he
  by_cases h1 : drv.createShaderOk
  · rw [if_pos h1] at he
    by_cases h2 : drv.compileOk t source
    · rw [if_pos h2] at he
      simp at he
    · rw [if_neg h2] at he
      simp only [Except.error.injEq] at he
      subst he
      cases t <;>
        exact append_ne_empty_of_left _ _ (by rw [String.length_append]; decide)
  · rw [if_neg h1] at he
    simp only [Except.error.injEq] at he
    subst he
    exact append_ne_empty_of_left _ _ (by decide)

lemma link_error_ne_empty (drv : GlDriver) (nextId : Nat) (b : ShaderBuilder)
    (e : String) (he : (link drv nextId b).val = .error e) : e ≠ "" := by
  rw [link] at he
  by_cases h1 : drv.createProgramOk
  · rw [if_pos h1] at he
    by_cases h2 : drv.linkOk
    · rw [if_pos h2] at he
      simp at he
    · rw [if_neg h2] at he
      simp only [Except.error.injEq] at he
      subst he
      exact append_ne_empty_of_left _ _ (by decide)
  · rw [if_neg h1] at he
    simp only [Except.error.injEq] at he
    subst he
    exact append_ne_empty_of_left _ _ (by decide)

lemma buildCustomShader_error_ne_empty (drv : GlDriver) (nextId : Nat)
    (vert frag : String) (e : String)
    (he : (buildCustomShader drv nextId vert frag).val = .error e) : e ≠ "" := by
  simp only [buildCustomShader] at he
  cases hr1 : (addShaderSource drv nextId ⟨[]⟩ vert ShaderType.vertex).val with
  | error e1 =>
    rw [hr1] at he
    simp only [Except.error.injEq] at he
    subst he
    exact addShaderSource_error_ne_empty _ _ _ _ _ _ hr1
  | ok b1 =>
    rw [hr1] at he
    simp only at he
    cases hr2 : (addShaderSource drv
        (addShaderSource drv nextId ⟨[]⟩ vert ShaderType.vertex).nextId b1 frag
        ShaderType.fragment).val with
    | error e2 =>
      rw [hr2] at he
      simp only [Except.error.injEq] at he
      subst he
      exact addShaderSource_error_ne_empty _ _ _ _ _ _ hr2
    | ok b2 =>
      rw [hr2] at he
      simp only at he
      exact link_error_ne_empty _ _ _ _ he

/-- Claim C2 counterexample: with an entity whose `CustomShader` holds a
working program 5 and a driver that rejects the fragment source, the
recompile command does not keep the previous program active: the delete of
program 5 is issued up front and the component ends holding the error, not
`Ok` of the old program. -/
theorem compile_custom_shader_keeps_previous_cex :
    (compileCustomShader drvFragFailW 10 csPrevW).2.2.shader ≠ .ok (Shader.new 5) ∧
    GlCall.deleteProgram 5 ∈ (compileCustomShader drvFragFailW 10 csPrevW).2.1 ∧
    (compileCustomShader drvFragFailW 10 csPrevW).2.2.shader
      = .error ("Fragment shader compilation failed:\n0:1: syntax error") := by
  refine ⟨?_, ?_, ?_⟩ <;> decide

/-- Claim C2 amended: when a recompile is requested for an entity with a
`CustomShader`, the previously compiled program (if any) is destroyed
first — before any compilation — and the outcome of compiling the current
sources is stored in the component: on failure the component holds a
non-empty compiler diagnostic (the renderer then falls back to the default
shader), on success the newly linked program; the source strings and every
other entity are untouched. -/
theorem compile_custom_shader_replaces_up_front (drv : GlDriver) (nextId : Nat)
    (cs : CustomShader) (prev : Shader) (hprev : cs.shader = .ok prev) :
    (compileCustomShader drv nextId cs).2.1.head?
      = some (GlCall.deleteProgram prev.program) ∧
    (∀ e, (compileCustomShader drv nextId cs).2.2.shader = .error e → e ≠ "") ∧
    (drv.createShaderOk = true → drv.createProgramOk = true →
      drv.compileOk .vertex cs.vertSource = true →
      drv.compileOk .fragment cs.fragSource = true → drv.linkOk = true →
      (compileCustomShader drv nextId cs).2.2.shader
        = .ok (Shader.new (nextId + 2))) ∧
    (compileCustomShader drv nextId cs).2.2.vertSource = cs.vertSource ∧
    (compileCustomShader drv nextId cs).2.2.fragSource = cs.fragSource ∧
    (∀ target world e2, e2 ∈ world → e2.id ≠ target →
      e2 ∈ (worldCompileCustomShader drv nextId target world).2.2) := by
  refine ⟨?_, ?_, ?_, rfl, rfl, ?_⟩
  · simp [compileCustomShader, hprev]
  · intro e he
    have : (buildCustomShader drv nextId cs.vertSource cs.fragSource).val
        = .error e := by
      simpa [compileCustomShader] using he
    exact buildCustomShader_error_ne_empty _ _ _ _ _ this
  · intro hco hcp hv hf hl
    have hres : (compileCustomShader drv nextId cs).2.2.shader
        = (buildCustomShader drv nextId cs.vertSource cs.fragSource).val := by
      simp [compileCustomShader]
    rw [hres]
    simp [buildCustomShader, addShaderSource, link, hco, hcp, hv, hf, hl]
  · intro target world
    induction world with
    | nil => intro e2 he2; simp at he2
    | cons a rest ih =>
      intro e2 he2 hne
      by_cases hid : a.id = target
      · rcases List.mem_cons.1 he2 with rfl | hmem
        · exact absurd hid hne
        · cases hcust : a.custom with
          | some c =>
            simp only [worldCompileCustomShader, if_pos hid, hcust]
            exact List.mem_cons_of_mem _ hmem
          | none =>
            simp only [worldCompileCustomShader, if_pos hid, hcust]
            exact List.mem_cons_of_mem _ hmem
      · rcases List.mem_cons.1 he2 with rfl | hmem
        · simp only [worldCompileCustomShader, if_neg hid]
          exact List.mem_cons_self _ _
        · simp only [worldCompileCustomShader, if_neg hid]
          exact List.mem_cons_of_mem _ (ih e2 hmem hne)

/-- Claim C2 amended witness: with a fully succeeding driver, recompiling
over the working program 5 deletes it first and installs the newly linked
program 12. -/
theorem compile_custom_shader_replaces_up_front_w :
    (compileCustomShader drvAllOkW 10 csPrevW).2.1.head?
      = some (GlCall.deleteProgram 5) ∧
    (compileCustomShader drvAllOkW 10 csPrevW).2.2.shader = .ok (Shader.new 12) := by
  have h := compile_custom_shader_replaces_up_front drvAllOkW 10 csPrevW
    (Shader.new 5) rfl
  exact ⟨h.1, h.2.2.1 rfl rfl rfl rfl rfl⟩

/-- Claim C10: `despawn_and_destroy` destroys the entity's GPU resources
before removing it from the world: the mesh's buffers and vertex array are
deleted when a `Mesh` is present, the custom shader program is deleted
when a `CustomShader` with an `Ok` result is present, the despawn is the
last action, the entity is gone from the world afterwards, other entities
survive, and an entity lacking these components is simply despawned. -/
theorem despawn_and_destroy_frees_gpu (target : Nat) (world : List WorldEntity)
    (e : WorldEntity) (hfind : world.find? (fun x => x.id == target) = some e) :
    (despawnAndDestroy target world).1.getLast? = some (WorldAction.despawn target) ∧
    (∀ m, e.mesh = some m →
      (∀ b ∈ m.buffers,
        WorldAction.gl (GlCall.deleteBuffer b) ∈ (despawnAndDestroy target world).1) ∧
      WorldAction.gl (GlCall.deleteVertexArray m.vaoId)
        ∈ (despawnAndDestroy target world).1) ∧
    (∀ cs s, e.custom = some cs → cs.shader = .ok s →
      WorldAction.gl (GlCall.deleteProgram s.program)
        ∈ (despawnAndDestroy target world).1) ∧
    (e.mesh = none → e.custom = none →
      (despawnAndDestroy target world).1 = [WorldAction.despawn target]) ∧
    (∀ e2 ∈ (despawnAndDestroy target world).2, e2.id ≠ target) ∧
    (∀ e2 ∈ world, e2.id ≠ target → e2 ∈ (despawnAndDestroy target world).2) := by
  refine ⟨?_, ?_, ?_, ?_, ?_, ?_⟩
  · rw [despawnAndDestroy]
    exact List.getLast?_concat _
  · intro m hm
    constructor
    · intro b hb
      simp only [despawnAndDestroy, hfind, hm, meshDestroyCalls]
      simp only [List.mem_append, List.map_append, List.map_map, List.mem_map]
      exact Or.inl (Or.inl (Or.inl ⟨b, hb, rfl⟩))
    · simp only [despawnAndDestroy, hfind, hm, meshDestroyCalls]
      simp [List.mem_append]
  · intro cs s hcs hok
    simp only [despawnAndDestroy, hfind, hcs, hok]
    simp [List.mem_append]
  · intro hm hcs
    simp [despawnAndDestroy, hfind, hm, hcs]
  · intro e2 he2
    simp only [despawnAndDestroy] at he2
    have := List.of_mem_filter he2
    simpa using this
  · intro e2 he2 hne
    simp only [despawnAndDestroy]
    exact List.mem_filter.2 ⟨he2, by simpa using hne⟩

/-- Claim C10 witness: despawning entity 1 (mesh buffers 51–54, vertex
array 50, custom shader program 70) deletes its GPU objects with the
despawn last, and entity 2 survives. -/
theorem despawn_and_destroy_frees_gpu_w :
    (despawnAndDestroy 1 worldDespawnW).1.getLast? = some (WorldAction.despawn 1) ∧
    WorldAction.gl (GlCall.deleteProgram 70) ∈ (despawnAndDestroy 1 worldDespawnW).1 ∧
    WorldAction.gl (GlCall.deleteVertexArray 50)
      ∈ (despawnAndDestroy 1 worldDespawnW).1 ∧
    (⟨2, none, none⟩ : WorldEntity) ∈ (despawnAndDestroy 1 worldDespawnW).2 := by
  have h := despawn_and_destroy_frees_gpu 1 worldDespawnW
    ⟨1, some ⟨50, [51, 52, 53, 54], 36⟩, some ⟨.ok (Shader.new 70), "v", "f"⟩⟩ (by decide)
  refine ⟨h.1, ?_, ?_, ?_⟩
  · exact h.2.2.1 ⟨.ok (Shader.new 70), "v", "f"⟩ (Shader.new 70) rfl rfl
  · exact (h.2.1 ⟨50, [51, 52, 53, 54], 36⟩ rfl).2
  · exact h.2.2.2.2.2 ⟨2, none, none⟩ (by decide) (by decide)

end SceneEditor
